import Mathlib

/-!
Shallow embedding of the nvme-amz crate (src/lib.rs): the pure core of the
device-identification pipeline — the vendor-specific name parser
(`Names::try_from`), the classifier (`Nvme::from_fd` after the ioctl), the
effective-name accessor (`Nvme::name`), the `repr(C)` layout of `NvmeIdCtrl`,
and the admin-command construction of `nvme_identify_ctrl`.
Bytes are modelled as `Nat` (the reachable values are below 256), Rust
`String` as Lean `String`, fallible paths as `Except`.
-/

namespace NvmeAmz

/-- Error enum of the crate (the pure variants; the `Io`/errno wrappers carry
platform transport errors that never arise in the pure pipeline model). -/
inductive Error where
  | DeviceNameNotFound : Error
  | UnparseableDeviceName : String → Error
  | UnrecognizedVendorId : Nat → Error
  | UnrecognizedModel : String → Error
deriving DecidableEq

/-- The `Names` struct: optional block-device-mapping name and optional
virtual (ephemeral) name.  The private `_internal: ()` field of the source
only restricts construction and carries no data. -/
structure Names where
  device_name : Option String
  virtual_name : Option String
deriving DecidableEq

instance {ε α : Type} [DecidableEq ε] [DecidableEq α] : DecidableEq (Except ε α) := fun a b =>
  match a, b with
  | .ok x, .ok y => decidable_of_iff (x = y) (by simp)
  | .error x, .error y => decidable_of_iff (x = y) (by simp)
  | .ok _, .error _ => isFalse (by simp)
  | .error _, .ok _ => isFalse (by simp)

def AMZ_EBS_MN : String := "Amazon Elastic Block Store"

def AMZ_INST_STORE_MN : String := "Amazon EC2 NVMe Instance Storage"

def AMZ_VENDOR_ID : Nat := 0x1D0F

def NVME_ADMIN_IDENTIFY : Nat := 0x06

/-- The scanning loop of `Names::try_from` (src/lib.rs lines 510-523): stop at
the first NUL (0) or space (0x20); a colon (0x3a) sets `has_delim` and is
consumed (`continue`) whether or not a delimiter was already seen; any other
byte is pushed as a `char` onto `field1` before the delimiter and onto
`field2` after it. -/
def parseLoop : List Nat → Bool → String → String → Bool × String × String
  | [], has_delim, field1, field2 => (has_delim, field1, field2)
  | c :: rest, has_delim, field1, field2 =>
    if c = 0 ∨ c = 32 then (has_delim, field1, field2)
    else if c = 58 then parseLoop rest true field1 field2
    else if has_delim then parseLoop rest has_delim field1 (field2.push (Char.ofNat c))
    else parseLoop rest has_delim (field1.push (Char.ofNat c)) field2

/-- Leading "/dev/" removal applied to each field (src/lib.rs lines 525-531).
The source tests `starts_with("/dev/")` and keeps the byte slice from index
5 on; as "/dev/" is five ASCII characters, this is the character-level test
and drop performed here. -/
def stripDev (s : String) : String :=
  if "/dev/".data.isPrefixOf s.data then String.mk (s.data.drop 5) else s

/-- `Names::try_from` over the byte slice (src/lib.rs lines 490-556): run the
scanning loop, strip "/dev/" from both fields, then build `device_name`
(second field when a delimiter was seen, unless it equals "none"; otherwise
the first field) and `virtual_name` (first field when a delimiter was seen);
if both are `none`, fail with `UnparseableDeviceName` carrying the whole
input decoded as characters. -/
def names_try_from (chars : List Nat) : Except Error Names :=
  let r := parseLoop chars false "" ""
  let has_delim := r.1
  let field1 := stripDev r.2.1
  let field2 := stripDev r.2.2
  let device_name : Option String :=
    if has_delim then (if field2 = "none" then none else some field2) else some field1
  let virtual_name : Option String := if has_delim then some field1 else none
  if device_name = none ∧ virtual_name = none then
    Except.error (Error.UnparseableDeviceName (String.mk (chars.map Char.ofNat)))
  else
    Except.ok { device_name := device_name, virtual_name := virtual_name }

/-- The successful value `names_try_from` builds from the loop's result
(helper for stating that the error branch never fires). -/
def mkNames (t : Bool × String × String) : Names :=
  let f1 := stripDev t.2.1
  let f2 := stripDev t.2.2
  if t.1 then
    { device_name := if f2 = "none" then none else some f2, virtual_name := some f1 }
  else
    { device_name := some f1, virtual_name := none }

/-- Whether an `Except` value is the `ok` constructor. -/
def exceptIsOk {ε α : Type} : Except ε α → Bool
  | .ok _ => true
  | .error _ => false

/-- `Nvme::name` (src/lib.rs lines 586-591): the device name if present,
otherwise the virtual name; `none` models the `unwrap` panic when neither
is present. -/
def names_name (ns : Names) : Option String :=
  match ns.device_name with
  | some d => some d
  | none => ns.virtual_name

/-- The `Model` enum. -/
inductive Model where
  | AmazonElasticBlockStore : Model
  | AmazonInstanceStore : Model
deriving DecidableEq

/-- The `VendorId` newtype around the raw 16-bit vendor identifier. -/
structure VendorId where
  val : Nat
deriving DecidableEq

/-- The `Nvme` result struct. -/
structure Nvme where
  model : Model
  names : Names
  vendor_id : VendorId
deriving DecidableEq

/-- The fields of `NvmeIdCtrl` that `Nvme::from_fd` reads: the 16-bit vendor
id `vid`, the 40-byte model field `mn`, and the 32-byte `vs.bdev` name
field. -/
structure NvmeIdCtrlData where
  vid : Nat
  mn : List Nat
  bdev : List Nat
deriving DecidableEq

/-- Rust `char::is_whitespace`, restricted to the code points reachable from
a byte (`c as u8 as char` yields points 0..255): the White_Space code points
below 0x100 are 0x09-0x0D, 0x20, 0x85 and 0xA0. -/
def rustIsWhitespace (c : Char) : Bool :=
  c.toNat = 9 ∨ c.toNat = 10 ∨ c.toNat = 11 ∨ c.toNat = 12 ∨ c.toNat = 13 ∨
    c.toNat = 32 ∨ c.toNat = 133 ∨ c.toNat = 160

/-- Removal of trailing whitespace from a character list, as
`str::trim_end` does (the source then truncates the string to the trimmed
byte length, which keeps exactly the trimmed character sequence). -/
def trimEndRust (l : List Char) : List Char :=
  (l.reverse.dropWhile rustIsWhitespace).reverse

/-- Decoding of the 40-byte `mn` field in `Nvme::from_fd` (src/lib.rs lines
602-603): each byte becomes a `char`, then trailing whitespace is trimmed. -/
def decode_model (mn : List Nat) : String :=
  String.mk (trimEndRust (mn.map Char.ofNat))

/-- The pure tail of `Nvme::from_fd` (src/lib.rs lines 598-615) after the
ioctl returned `ctrl`: vendor gate, model decode and exact match, then name
parse of `vs.bdev`, assembling the `Nvme` value. -/
def nvme_from_ctrl (ctrl : NvmeIdCtrlData) : Except Error Nvme :=
  if ctrl.vid ≠ AMZ_VENDOR_ID then
    Except.error (Error.UnrecognizedVendorId ctrl.vid)
  else
    let model_str := decode_model ctrl.mn
    if model_str = AMZ_EBS_MN then
      (names_try_from ctrl.bdev).map
        (fun ns => { model := Model.AmazonElasticBlockStore, names := ns, vendor_id := ⟨ctrl.vid⟩ })
    else if model_str = AMZ_INST_STORE_MN then
      (names_try_from ctrl.bdev).map
        (fun ns => { model := Model.AmazonInstanceStore, names := ns, vendor_id := ⟨ctrl.vid⟩ })
    else
      Except.error (Error.UnrecognizedModel model_str)

/-- Encoding of a string as the byte values of its characters (all
characters of the model constants are ASCII). -/
def encodeStr (s : String) : List Nat := s.data.map Char.toNat

/-- A field of a `repr(C)` struct: its name, byte size and alignment. -/
structure CField where
  fname : String
  fsize : Nat
  falign : Nat
deriving DecidableEq

/-- Rounding of an offset up to the next multiple of an alignment. -/
def alignUp (off a : Nat) : Nat := (off + a - 1) / a * a

/-- Offsets assigned to the fields of a `repr(C)` struct laid out from a
starting offset: each field is placed at its offset rounded up to its
alignment. -/
def offsetsAux : List CField → Nat → List (String × Nat)
  | [], _ => []
  | f :: fs, off =>
    let o := alignUp off f.falign
    (f.fname, o) :: offsetsAux fs (o + f.fsize)

/-- End offset after laying out all the fields. -/
def structEnd : List CField → Nat → Nat
  | [], off => off
  | f :: fs, off => structEnd fs (alignUp off f.falign + f.fsize)

/-- Alignment of a `repr(C)` struct: the maximum field alignment. -/
def structAlign (fs : List CField) : Nat := fs.foldl (fun a f => max a f.falign) 1

/-- Size of a `repr(C)` struct: the end offset padded to the struct
alignment. -/
def structSize (fs : List CField) : Nat := alignUp (structEnd fs 0) (structAlign fs)

/-- Offset of a named field in a `repr(C)` struct. -/
def offsetOf (fs : List CField) (n : String) : Option Nat :=
  (offsetsAux fs 0).lookup n

/-- Abbreviation for building a `CField`. -/
def fld (n : String) (s a : Nat) : CField := { fname := n, fsize := s, falign := a }

/-- The fields of `NvmeIdPsd` (src/lib.rs lines 97-115), with the sizes and
alignments of `c_ushort`, `c_uchar`, `c_uint` on a 64-bit Linux target. -/
def nvmeIdPsdFields : List CField :=
  [fld "mp" 2 2, fld "rsvd2" 1 1, fld "flags" 1 1, fld "enlat" 4 4, fld "exlat" 4 4,
   fld "rrt" 1 1, fld "rrl" 1 1, fld "rwt" 1 1, fld "rwl" 1 1, fld "idlp" 2 2,
   fld "ips" 1 1, fld "rsvd19" 1 1, fld "actp" 2 2, fld "apws" 1 1, fld "rsvd23" 9 1]

/-- The fields of `NvmeVuIdCtrlField` (src/lib.rs lines 139-144): the 32-byte
`bdev` name field followed by 992 reserved bytes. -/
def nvmeVuIdCtrlFields : List CField :=
  [fld "bdev" 32 1, fld "reserved0" 992 1]

/-- The fields of `NvmeIdCtrl` (src/lib.rs lines 155-255), in source order,
with `c_char`/`c_uchar` of size 1, `c_ushort` of size 2, `c_uint` of size 4,
arrays multiplying the element size, and the nested `psd` array and `vs`
struct taking their computed sizes and alignments. -/
def nvmeIdCtrlFields : List CField :=
  [fld "vid" 2 2, fld "ssvid" 2 2, fld "sn" 20 1, fld "mn" 40 1, fld "fr" 8 1,
   fld "rab" 1 1, fld "ieee" 3 1, fld "cmic" 1 1, fld "mdts" 1 1, fld "cntlid" 2 2,
   fld "ver" 4 4, fld "rtd3r" 4 4, fld "rtd3e" 4 4, fld "oaes" 4 4, fld "ctratt" 4 4,
   fld "rrls" 2 2, fld "rsvd102" 9 1, fld "cntrltype" 1 1, fld "fguid" 16 1,
   fld "crdt1" 2 2, fld "crdt2" 2 2, fld "crdt3" 2 2, fld "rsvd134" 119 1,
   fld "nvmsr" 1 1, fld "vwci" 1 1, fld "mec" 1 1, fld "oacs" 2 2, fld "acl" 1 1,
   fld "aerl" 1 1, fld "frmw" 1 1, fld "lpa" 1 1, fld "elpe" 1 1, fld "npss" 1 1,
   fld "avscc" 1 1, fld "apsta" 1 1, fld "wctemp" 2 2, fld "cctemp" 2 2,
   fld "mtfa" 2 2, fld "hmpre" 4 4, fld "hmmin" 4 4, fld "tnvmcap" 16 1,
   fld "unvmcap" 16 1, fld "rpmbs" 4 4, fld "edstt" 2 2, fld "dsto" 1 1,
   fld "fwug" 1 1, fld "kas" 2 2, fld "hctma" 2 2, fld "mntmt" 2 2, fld "mxtmt" 2 2,
   fld "sanicap" 4 4, fld "hmminds" 4 4, fld "hmmaxd" 2 2, fld "nsetidmax" 2 2,
   fld "endgidmax" 2 2, fld "anatt" 1 1, fld "anacap" 1 1, fld "anagrpmax" 4 4,
   fld "nanagrpid" 4 4, fld "pels" 4 4, fld "domainid" 2 2, fld "rsvd358" 10 1,
   fld "megcap" 16 1, fld "tmpthha" 1 1, fld "rsvd385" 127 1, fld "sqes" 1 1,
   fld "cqes" 1 1, fld "maxcmd" 2 2, fld "nn" 4 4, fld "oncs" 2 2, fld "fuses" 2 2,
   fld "fna" 1 1, fld "vwc" 1 1, fld "awun" 2 2, fld "awupf" 2 2, fld "icsvscc" 1 1,
   fld "nwpc" 1 1, fld "acwu" 2 2, fld "ocfs" 2 2, fld "sgls" 4 4, fld "mnan" 4 4,
   fld "maxdna" 16 1, fld "maxcna" 4 4, fld "oaqd" 4 4, fld "rsvd568" 200 1,
   fld "subnqn" 256 1, fld "rsvd1024" 768 1, fld "ioccsz" 4 4, fld "iorcsz" 4 4,
   fld "icdoff" 2 2, fld "fcatt" 1 1, fld "msdbd" 1 1, fld "ofcs" 2 2,
   fld "dctype" 1 1, fld "rsvd1807" 241 1,
   fld "psd" (32 * structSize nvmeIdPsdFields) (structAlign nvmeIdPsdFields),
   fld "vs" (structSize nvmeVuIdCtrlFields) (structAlign nvmeVuIdCtrlFields)]

/-- Buffer laid out per the documented hardware layout: the little-endian
16-bit vendor id at offset 0, the 40-byte model field at offset 24, the
32-byte name field at the start of the vendor-specific region at offset
3072, and zeros elsewhere. -/
def encodeCtrl (v : Nat) (m b : List Nat) : List Nat :=
  [v % 256, v / 256] ++ List.replicate 22 0 ++ m ++ List.replicate 3008 0 ++
    b ++ List.replicate 992 0

/-- Reading of the little-endian 16-bit vendor id at offset 0. -/
def decodeVid (buf : List Nat) : Nat := buf.getD 0 0 + 256 * buf.getD 1 0

/-- Reading of the 40-byte model field at offset 24. -/
def decodeMn (buf : List Nat) : List Nat := (buf.drop 24).take 40

/-- Reading of the 32-byte name field at offset 3072. -/
def decodeBdev (buf : List Nat) : List Nat := (buf.drop 3072).take 32

/-- The `NvmePassthruCmd` struct (src/lib.rs lines 361-382), also used as
`NvmeAdminCmd`. -/
structure NvmePassthruCmd where
  opcode : Nat
  flags : Nat
  rsvd1 : Nat
  nsid : Nat
  cdw2 : Nat
  cdw3 : Nat
  metadata : Nat
  addr : Nat
  metadata_len : Nat
  data_len : Nat
  cdw10 : Nat
  cdw11 : Nat
  cdw12 : Nat
  cdw13 : Nat
  cdw14 : Nat
  cdw15 : Nat
  timeout_ms : Nat
  result : Nat
deriving DecidableEq

/-- `NvmeAdminCmd::default()`: every field zero. -/
def nvmeAdminCmdDefault : NvmePassthruCmd :=
  { opcode := 0, flags := 0, rsvd1 := 0, nsid := 0, cdw2 := 0, cdw3 := 0,
    metadata := 0, addr := 0, metadata_len := 0, data_len := 0, cdw10 := 0,
    cdw11 := 0, cdw12 := 0, cdw13 := 0, cdw14 := 0, cdw15 := 0,
    timeout_ms := 0, result := 0 }

/-- The admin command built by `nvme_identify_ctrl` (src/lib.rs lines
403-409 and 454-460): the default command with `addr` pointing at the
response buffer, `cdw10 = 1`, `data_len = size_of::<NvmeIdCtrl>()` and the
identify opcode. -/
def nvme_identify_ctrl_cmd (addr : Nat) : NvmePassthruCmd :=
  { nvmeAdminCmdDefault with
    addr := addr, cdw10 := 1, data_len := structSize nvmeIdCtrlFields,
    opcode := NVME_ADMIN_IDENTIFY }

/-- The buffer and command set up by `nvme_identify_ctrl`: a zero-initialized
response buffer of the struct's size, and the admin command whose address
field references that buffer (the address-of operation is abstracted as a
function from the buffer to its address). -/
def nvme_identify_ctrl_call (addrOf : List Nat → Nat) : NvmePassthruCmd × List Nat :=
  let out := List.replicate (structSize nvmeIdCtrlFields) 0
  (nvme_identify_ctrl_cmd (addrOf out), out)

set_option maxRecDepth 100000

theorem try_from_eq_ok (chars : List Nat) :
    names_try_from chars = Except.ok (mkNames (parseLoop chars false "" "")) := by
  rcases h : parseLoop chars false "" "" with ⟨hd, f1, f2⟩
  cases hd
  · simp [names_try_from, mkNames, h]
  · by_cases h2 : stripDev f2 = "none" <;> simp [names_try_from, mkNames, h, h2]

theorem parseLoop_takeWhile (chars : List Nat) (hd : Bool) (f1 f2 : String) :
    parseLoop (chars.takeWhile fun c => !(c == 0 || c == 32)) hd f1 f2 =
      parseLoop chars hd f1 f2 := by
  induction chars generalizing hd f1 f2 with
  | nil => rfl
  | cons c rest ih =>
    by_cases hc : c = 0 ∨ c = 32
    · rcases hc with h | h <;> subst h <;> simp [parseLoop, List.takeWhile_cons]
    · obtain ⟨h0, h32⟩ := not_or.mp hc
      simp only [Bool.not_or] at ih ⊢
      by_cases h58 : c = 58
      · subst h58
        simp [parseLoop, List.takeWhile_cons, ih]
      · cases hd <;> simp [parseLoop, List.takeWhile_cons, h0, h32, h58, ih]

theorem mkNames_name_some (t : Bool × String × String) :
    ∃ s, names_name (mkNames t) = some s := by
  rcases t with ⟨hd, f1, f2⟩
  cases hd
  · exact ⟨stripDev f1, rfl⟩
  · by_cases h2 : stripDev f2 = "none"
    · exact ⟨stripDev f1, by simp [mkNames, names_name, h2]⟩
    · exact ⟨stripDev f2, by simp [mkNames, names_name, h2]⟩

theorem dropWhile_ws_replicate (k : Nat) (l : List Char) :
    (List.replicate k ' ' ++ l).dropWhile rustIsWhitespace =
      l.dropWhile rustIsWhitespace := by
  have hws : rustIsWhitespace ' ' = true := by decide
  induction k with
  | zero => simp
  | succ n ih => simp [List.replicate_succ, List.dropWhile_cons, hws, ih]

theorem trimEnd_append_spaces (l : List Char) (k : Nat) :
    trimEndRust (l ++ List.replicate k ' ') = trimEndRust l := by
  unfold trimEndRust
  rw [List.reverse_append, List.reverse_replicate, dropWhile_ws_replicate]

theorem decode_model_spaces (s : String) (hs : trimEndRust s.data = s.data) (k : Nat) :
    decode_model (encodeStr s ++ List.replicate k 32) = s := by
  unfold decode_model encodeStr
  rw [List.map_append, List.map_map]
  have h1 : s.data.map (Char.ofNat ∘ Char.toNat) = s.data := by
    simp [Function.comp_def]
  have h2 : (List.replicate k (32 : Nat)).map Char.ofNat = List.replicate k ' ' := by
    rw [List.map_replicate]
  rw [h1, h2, trimEnd_append_spaces, hs]

/-- Claim C1, counterexample: parsing the single terminator byte "\x00" does
not fail as the claim states — it returns `Ok` with device name `Some("")`
and no virtual name. -/
theorem names_null_parse_cex :
    names_try_from [0] = Except.ok { device_name := some "", virtual_name := none } ∧
    exceptIsOk (names_try_from [0]) = true :=
  ⟨by decide, by decide⟩

/-- Claim C1, amended: parsing "\x00" succeeds with device name `Some("")`
and no virtual name; the `UnparseableDeviceName` return of
`Names::try_from`, which fires exactly when the parse yields neither a
device name nor a virtual name, is unreachable — the parser returns `Ok` on
every input. -/
theorem names_error_branch_unreachable :
    names_try_from [0] = Except.ok { device_name := some "", virtual_name := none } ∧
    ∀ chars : List Nat, exceptIsOk (names_try_from chars) = true := by
  refine ⟨by decide, fun chars => ?_⟩
  rw [try_from_eq_ok]
  rfl

/-- Claim C2, counterexample: parsing "a:b:c\x00" yields device name "bc",
not "b:c" as the claim states — a colon met in the after-delimiter state is
skipped, not appended. -/
theorem names_second_colon_cex :
    names_try_from [97, 58, 98, 58, 99, 0] =
      Except.ok { device_name := some "bc", virtual_name := some "a" } ∧
    ((names_try_from [97, 58, 98, 58, 99, 0] =
      Except.ok { device_name := some "b:c", virtual_name := some "a" }) = False) :=
  ⟨by decide, eq_false (by decide)⟩

/-- Claim C2, amended: a colon encountered while already in the
after-delimiter state is consumed by the `continue` and appended to neither
field, so parsing "a:b:c\x00" yields virtual name "a" and device name
"bc". -/
theorem names_second_colon_skipped :
    (∀ (rest : List Nat) (f1 f2 : String),
      parseLoop (58 :: rest) true f1 f2 = parseLoop rest true f1 f2) ∧
    names_try_from [97, 58, 98, 58, 99, 0] =
      Except.ok { device_name := some "bc", virtual_name := some "a" } := by
  constructor
  · intro rest f1 f2
    simp [parseLoop]
  · decide

/-- Claim C3: the three canonical inputs parse as specified —
"/dev/sda1\x00" gives device "sda1" and no virtual name,
"ephemeral0:/dev/sdb\x00" gives virtual "ephemeral0" and device "sdb", and
"ephemeral1:none\x00" gives virtual "ephemeral1" and no device name. -/
theorem names_canonical_inputs :
    names_try_from (encodeStr "/dev/sda1" ++ [0]) =
      Except.ok { device_name := some "sda1", virtual_name := none } ∧
    names_try_from (encodeStr "ephemeral0:/dev/sdb" ++ [0]) =
      Except.ok { device_name := some "sdb", virtual_name := some "ephemeral0" } ∧
    names_try_from (encodeStr "ephemeral1:none" ++ [0]) =
      Except.ok { device_name := none, virtual_name := some "ephemeral1" } :=
  ⟨by decide, by decide, by decide⟩

/-- Claim C4: for every identify response whose 16-bit vendor identifier
differs from 0x1D0F, classification fails with `UnrecognizedVendorId`
carrying the actual value, whatever the model and name fields hold — the
vendor check precedes model decoding and name parsing. -/
theorem vendor_gate_precedence (ctrl : NvmeIdCtrlData)
    (_h16 : ctrl.vid < 65536) (hne : ctrl.vid ≠ AMZ_VENDOR_ID) :
    nvme_from_ctrl ctrl = Except.error (Error.UnrecognizedVendorId ctrl.vid) := by
  simp [nvme_from_ctrl, hne]

/-- Witness for claim C4 at a concrete response with vendor id 0. -/
theorem vendor_gate_precedence_witness :
    nvme_from_ctrl { vid := 0, mn := [], bdev := [] } =
      Except.error (Error.UnrecognizedVendorId 0) :=
  vendor_gate_precedence { vid := 0, mn := [], bdev := [] } (by decide) (by decide)

/-- Claim C5: a model field holding a known model string followed by any
number of trailing spaces is recognized as the corresponding model, and any
model field whose trimmed decoding is neither known string fails with
`UnrecognizedModel` carrying the decoded string — exact matching only. -/
theorem model_exact_match (bdev : List Nat) :
    (∀ k : Nat, ∃ ns,
      nvme_from_ctrl ⟨AMZ_VENDOR_ID, encodeStr AMZ_EBS_MN ++ List.replicate k 32, bdev⟩ =
        Except.ok ⟨Model.AmazonElasticBlockStore, ns, ⟨AMZ_VENDOR_ID⟩⟩) ∧
    (∀ k : Nat, ∃ ns,
      nvme_from_ctrl ⟨AMZ_VENDOR_ID, encodeStr AMZ_INST_STORE_MN ++ List.replicate k 32, bdev⟩ =
        Except.ok ⟨Model.AmazonInstanceStore, ns, ⟨AMZ_VENDOR_ID⟩⟩) ∧
    (∀ mn : List Nat,
      decode_model mn ≠ AMZ_EBS_MN → decode_model mn ≠ AMZ_INST_STORE_MN →
      nvme_from_ctrl ⟨AMZ_VENDOR_ID, mn, bdev⟩ =
        Except.error (Error.UnrecognizedModel (decode_model mn))) := by
  refine ⟨fun k => ?_, fun k => ?_, fun mn h1 h2 => ?_⟩
  · refine ⟨mkNames (parseLoop bdev false "" ""), ?_⟩
    have hm := decode_model_spaces AMZ_EBS_MN (by decide) k
    simp [nvme_from_ctrl, hm, try_from_eq_ok, Except.map]
  · refine ⟨mkNames (parseLoop bdev false "" ""), ?_⟩
    have hm := decode_model_spaces AMZ_INST_STORE_MN (by decide) k
    have hne : AMZ_INST_STORE_MN ≠ AMZ_EBS_MN := by decide
    simp [nvme_from_ctrl, hm, hne, try_from_eq_ok, Except.map]
  · simp [nvme_from_ctrl, h1, h2]

/-- Witness for claim C5: the EBS model padded with 14 trailing spaces (a
40-byte field) is recognized, and an empty model field is rejected with its
decoded string. -/
theorem model_exact_match_witness :
    (∃ ns,
      nvme_from_ctrl ⟨AMZ_VENDOR_ID, encodeStr AMZ_EBS_MN ++ List.replicate 14 32, [0]⟩ =
        Except.ok ⟨Model.AmazonElasticBlockStore, ns, ⟨AMZ_VENDOR_ID⟩⟩) ∧
    nvme_from_ctrl ⟨AMZ_VENDOR_ID, [], [0]⟩ =
      Except.error (Error.UnrecognizedModel (decode_model [])) :=
  ⟨(model_exact_match [0]).1 14, (model_exact_match [0]).2.2 [] (by decide) (by decide)⟩

/-- Claim C6: on every `Names` value produced by the parser, `name()`
returns the device name when present, otherwise the virtual name, and never
fails — it always returns a value. -/
theorem effective_name_total (chars : List Nat) (ns : Names)
    (h : names_try_from chars = Except.ok ns) :
    (∀ d, ns.device_name = some d → names_name ns = some d) ∧
    (ns.device_name = none → names_name ns = ns.virtual_name) ∧
    ∃ s, names_name ns = some s := by
  refine ⟨fun d hd => by simp [names_name, hd], fun hd => by simp [names_name, hd], ?_⟩
  have h2 := try_from_eq_ok chars
  rw [h] at h2
  have h3 : ns = mkNames (parseLoop chars false "" "") := by
    injection h2
  rw [h3]
  exact mkNames_name_some _

/-- Witness for claim C6 at the parse of "a\x00". -/
theorem effective_name_total_witness :
    names_try_from [97, 0] = Except.ok { device_name := some "a", virtual_name := none } ∧
    ∃ s, names_name { device_name := some "a", virtual_name := none } = some s :=
  ⟨by decide,
   (effective_name_total [97, 0] { device_name := some "a", virtual_name := none }
     (by decide)).2.2⟩

/-- Claim C7: the parser's result depends only on the bytes strictly before
the first null-or-space terminator — two inputs whose pre-terminator
segments are equal parse identically. -/
theorem parse_ignores_after_terminator (b1 b2 : List Nat)
    (h : b1.takeWhile (fun c => !(c == 0 || c == 32)) =
         b2.takeWhile (fun c => !(c == 0 || c == 32))) :
    names_try_from b1 = names_try_from b2 := by
  rw [try_from_eq_ok, try_from_eq_ok, ← parseLoop_takeWhile b1, ← parseLoop_takeWhile b2, h]

/-- Witness for claim C7: "a\x00" and "a cc" share the pre-terminator
segment "a" and parse identically. -/
theorem parse_ignores_after_terminator_witness :
    ([97, 0] : List Nat).takeWhile (fun c => !(c == 0 || c == 32)) =
      ([97, 32, 99] : List Nat).takeWhile (fun c => !(c == 0 || c == 32)) ∧
    names_try_from [97, 0] = names_try_from [97, 32, 99] :=
  ⟨by decide, parse_ignores_after_terminator [97, 0] [97, 32, 99] (by decide)⟩

theorem structSize_ctrl_eq : structSize nvmeIdCtrlFields = 4096 := by decide

theorem offset_vid_eq : offsetOf nvmeIdCtrlFields "vid" = some 0 := by decide

theorem offset_mn_eq : offsetOf nvmeIdCtrlFields "mn" = some 24 := by decide

theorem offset_vs_eq : offsetOf nvmeIdCtrlFields "vs" = some 3072 := by decide

theorem offset_bdev_eq : offsetOf nvmeVuIdCtrlFields "bdev" = some 0 := by decide

/-- Claim C8: the identify-controller layout has total size 4096 with the
vendor id at offset 0, the model field at offset 24 and the vendor-specific
region (whose first 32 bytes are the name field) at offset 3072, and
decoding a buffer laid out at those offsets recovers the field values. -/
theorem identify_layout_roundtrip :
    structSize nvmeIdCtrlFields = 4096 ∧
    offsetOf nvmeIdCtrlFields "vid" = some 0 ∧
    offsetOf nvmeIdCtrlFields "mn" = some 24 ∧
    offsetOf nvmeIdCtrlFields "vs" = some 3072 ∧
    offsetOf nvmeVuIdCtrlFields "bdev" = some 0 ∧
    ∀ (v : Nat) (m b : List Nat), v < 65536 → m.length = 40 → b.length = 32 →
      (encodeCtrl v m b).length = 4096 ∧
      decodeVid (encodeCtrl v m b) = v ∧
      decodeMn (encodeCtrl v m b) = m ∧
      decodeBdev (encodeCtrl v m b) = b := by
  refine ⟨structSize_ctrl_eq, offset_vid_eq, offset_mn_eq, offset_vs_eq, offset_bdev_eq,
    fun v m b hv hm hb => ⟨?_, ?_, ?_, ?_⟩⟩
  · simp only [encodeCtrl, List.length_append, List.length_cons, List.length_nil,
      List.length_replicate, hm, hb]
  · simp only [decodeVid, encodeCtrl, List.cons_append, List.nil_append,
      List.getD_cons_zero, List.getD_cons_succ]
    exact Nat.mod_add_div v 256
  · have he : encodeCtrl v m b =
        ([v % 256, v / 256] ++ List.replicate 22 0) ++
          (m ++ (List.replicate 3008 0 ++ (b ++ List.replicate 992 0))) := by
      simp only [encodeCtrl, List.append_assoc]
    have hlen : ([v % 256, v / 256] ++ List.replicate 22 0).length = 24 := by
      simp only [List.length_append, List.length_cons, List.length_nil,
        List.length_replicate]
    rw [decodeMn, he, List.drop_left' hlen, List.take_left' hm]
  · have he : encodeCtrl v m b =
        ([v % 256, v / 256] ++ (List.replicate 22 0 ++ (m ++ List.replicate 3008 0))) ++
          (b ++ List.replicate 992 0) := by
      simp only [encodeCtrl, List.append_assoc]
    have hlen :
        ([v % 256, v / 256] ++ (List.replicate 22 0 ++ (m ++ List.replicate 3008 0))).length =
          3072 := by
      simp only [List.length_append, List.length_cons, List.length_nil,
        List.length_replicate, hm]
    rw [decodeBdev, he, List.drop_left' hlen, List.take_left' hb]

/-- Witness for claim C8 at vendor id 7439 (0x1D0F) with concrete model and
name bytes. -/
theorem identify_layout_roundtrip_witness :
    (7439 : Nat) < 65536 ∧
    (List.replicate 40 (7 : Nat)).length = 40 ∧
    (List.replicate 32 (9 : Nat)).length = 32 ∧
    decodeVid (encodeCtrl 7439 (List.replicate 40 7) (List.replicate 32 9)) = 7439 ∧
    decodeMn (encodeCtrl 7439 (List.replicate 40 7) (List.replicate 32 9)) =
      List.replicate 40 7 := by
  have h := identify_layout_roundtrip.2.2.2.2.2 7439 (List.replicate 40 7)
    (List.replicate 32 9) (by decide) (by simp only [List.length_replicate])
    (by simp only [List.length_replicate])
  exact ⟨by decide, by simp only [List.length_replicate], by simp only [List.length_replicate],
    h.2.1, h.2.2.1⟩

/-- Claim C9: the admin command constructed by the identify invoker has the
identify opcode 0x06, cdw10 equal to 1 selecting identify-controller,
data_len equal to the 4096-byte size of the identify structure, the address
of the zero-initialized response buffer in addr, and every remaining field
zero. -/
theorem identify_cmd_fields (addrOf : List Nat → Nat) :
    (nvme_identify_ctrl_call addrOf).2 = List.replicate 4096 0 ∧
    (nvme_identify_ctrl_call addrOf).1.addr = addrOf (nvme_identify_ctrl_call addrOf).2 ∧
    (nvme_identify_ctrl_call addrOf).1.opcode = 6 ∧
    (nvme_identify_ctrl_call addrOf).1.cdw10 = 1 ∧
    (nvme_identify_ctrl_call addrOf).1.data_len = structSize nvmeIdCtrlFields ∧
    structSize nvmeIdCtrlFields = 4096 ∧
    (nvme_identify_ctrl_call addrOf).1.flags = 0 ∧
    (nvme_identify_ctrl_call addrOf).1.rsvd1 = 0 ∧
    (nvme_identify_ctrl_call addrOf).1.nsid = 0 ∧
    (nvme_identify_ctrl_call addrOf).1.cdw2 = 0 ∧
    (nvme_identify_ctrl_call addrOf).1.cdw3 = 0 ∧
    (nvme_identify_ctrl_call addrOf).1.metadata = 0 ∧
    (nvme_identify_ctrl_call addrOf).1.metadata_len = 0 ∧
    (nvme_identify_ctrl_call addrOf).1.cdw11 = 0 ∧
    (nvme_identify_ctrl_call addrOf).1.cdw12 = 0 ∧
    (nvme_identify_ctrl_call addrOf).1.cdw13 = 0 ∧
    (nvme_identify_ctrl_call addrOf).1.cdw14 = 0 ∧
    (nvme_identify_ctrl_call addrOf).1.cdw15 = 0 ∧
    (nvme_identify_ctrl_call addrOf).1.timeout_ms = 0 ∧
    (nvme_identify_ctrl_call addrOf).1.result = 0 := by
  have hs : structSize nvmeIdCtrlFields = 4096 := structSize_ctrl_eq
  refine ⟨?_, rfl, rfl, rfl, rfl, hs, rfl, rfl, rfl,
    rfl, rfl, rfl, rfl, rfl, rfl, rfl, rfl, rfl, rfl, rfl⟩
  show List.replicate (structSize nvmeIdCtrlFields) 0 = List.replicate 4096 0
  rw [hs]

/-- Claim C10: `Names::try_from` returns `Ok` on every input — when no colon
was seen the device name is `Some` (possibly the empty string) and when a
colon was seen the virtual name is `Some`; in particular a slice whose
first byte is null or space yields `Ok` with device name `Some("")`, on
which `name()` returns the empty string. -/
theorem parse_always_ok (chars : List Nat) :
    names_try_from chars = Except.ok (mkNames (parseLoop chars false "" "")) ∧
    ((parseLoop chars false "" "").1 = false →
      ∃ s, (mkNames (parseLoop chars false "" "")).device_name = some s) ∧
    ((parseLoop chars false "" "").1 = true →
      ∃ s, (mkNames (parseLoop chars false "" "")).virtual_name = some s) ∧
    (∀ c rest, chars = c :: rest → c = 0 ∨ c = 32 →
      names_try_from chars = Except.ok { device_name := some "", virtual_name := none }) ∧
    names_name { device_name := some "", virtual_name := none } = some "" := by
  refine ⟨try_from_eq_ok chars, ?_, ?_, ?_, rfl⟩
  · intro h
    rcases ht : parseLoop chars false "" "" with ⟨hd, f1, f2⟩
    rw [ht] at h
    simp only at h
    subst h
    exact ⟨stripDev f1, by simp [mkNames]⟩
  · intro h
    rcases ht : parseLoop chars false "" "" with ⟨hd, f1, f2⟩
    rw [ht] at h
    simp only at h
    subst h
    exact ⟨stripDev f1, by simp [mkNames]⟩
  · intro c rest hcr hterm
    subst hcr
    have hp : parseLoop (c :: rest) false "" "" = (false, "", "") := by
      rcases hterm with h | h <;> subst h <;> simp [parseLoop]
    rw [try_from_eq_ok, hp]
    rfl

/-- Witness for claim C10 at the input "\x00". -/
theorem parse_always_ok_witness :
    names_try_from [0] = Except.ok { device_name := some "", virtual_name := none } :=
  (parse_always_ok [0]).2.2.2.1 0 [] rfl (Or.inl rfl)

end NvmeAmz
